import Mathlib

/-! Verification of the nghttp3-ruby C extension (ext/nghttp3), a Ruby binding
around the nghttp3 HTTP/3 library.

The binding layer (`nghttp3.c`, `nghttp3_connection.c`, `nghttp3_qpack.c`,
`nghttp3_nv.c`, `nghttp3_callbacks.c`) is embedded shallowly: each Ruby
method `rb_nghttp3_*` becomes a Lean function over an explicit state record,
with Ruby exceptions modelled by `Except`.  Calls into the wrapped nghttp3
library (whose sources are not part of this repository) are represented by
explicit outcome parameters where only the binding's handling of the result
matters, and by small models written from the specification where the
library's behaviour itself decides a claim (those definitions carry a
`Modelled from the spec:` doc comment).
-/

set_option maxRecDepth 4096
set_option linter.unusedVariables false

namespace Nghttp3

/-! Section: error codes and Ruby error classes, from nghttp3.c.

`ErrCode` is the set of `NGHTTP3_ERR_*` codes distinguished by the switch in
`nghttp3_rb_error_class_for_code` (nghttp3.c lines 83-117); every code not
named in the switch is `other b`, where `b` records `nghttp3_err_is_fatal`. -/

inductive ErrCode where
  | invalidArgument
  | invalidState
  | wouldblock
  | streamInUse
  | malformedHTTPHeader
  | malformedHTTPMessaging
  | qpackFatal
  | qpackHeaderTooLarge
  | streamNotFound
  | connClosing
  | streamDataOverflow
  | nomem
  | callbackFailure
  | other (isFatal : Bool)
deriving DecidableEq, Repr

/-- The Ruby exception classes defined in `Init_nghttp3` (nghttp3.c). -/
inductive RbErrClass where
  | invalidArgument
  | invalidState
  | wouldBlock
  | streamInUse
  | malformedHTTPHeader
  | malformedHTTPMessaging
  | qpackFatal
  | qpackHeaderTooLarge
  | streamNotFound
  | connClosing
  | streamDataOverflow
  | noMem
  | callbackFailure
  | fatal
  | base
deriving DecidableEq, Repr

/-- Embeds `nghttp3_rb_error_class_for_code` (nghttp3.c lines 83-117): the switch
mapping a library error code to the Ruby exception class raised for it.
The default branch consults `nghttp3_err_is_fatal`. -/
def nghttp3_rb_error_class_for_code : ErrCode → RbErrClass
  | .invalidArgument => .invalidArgument
  | .invalidState => .invalidState
  | .wouldblock => .wouldBlock
  | .streamInUse => .streamInUse
  | .malformedHTTPHeader => .malformedHTTPHeader
  | .malformedHTTPMessaging => .malformedHTTPMessaging
  | .qpackFatal => .qpackFatal
  | .qpackHeaderTooLarge => .qpackHeaderTooLarge
  | .streamNotFound => .streamNotFound
  | .connClosing => .connClosing
  | .streamDataOverflow => .streamDataOverflow
  | .nomem => .noMem
  | .callbackFailure => .callbackFailure
  | .other isFatal => if isFatal then .fatal else .base

/-- The error taxonomy exactly as the specification (§7) states it: each of
the thirteen named kinds raises its dedicated class, any other fatal code
raises the generic `Fatal` class, and any other non-fatal code raises the
base error class.  Written from the spec's words for comparison with
`nghttp3_rb_error_class_for_code`. -/
def spec_error_taxonomy : ErrCode → RbErrClass
  | .invalidArgument => .invalidArgument
  | .invalidState => .invalidState
  | .wouldblock => .wouldBlock
  | .streamInUse => .streamInUse
  | .malformedHTTPHeader => .malformedHTTPHeader
  | .malformedHTTPMessaging => .malformedHTTPMessaging
  | .qpackFatal => .qpackFatal
  | .qpackHeaderTooLarge => .qpackHeaderTooLarge
  | .streamNotFound => .streamNotFound
  | .connClosing => .connClosing
  | .streamDataOverflow => .streamDataOverflow
  | .nomem => .noMem
  | .callbackFailure => .callbackFailure
  | .other isFatal => if isFatal then .fatal else .base

/-! Section: the QPACK decoder binding, from nghttp3_qpack.c.

The decoder binding keeps, besides the wrapped `nghttp3_qpack_decoder`, a
Ruby hash `stream_contexts` mapping a stream id to a native per-stream
decode cursor.  The wrapped decoder is modelled by its dynamic-table entry
list (the applied insert count is `entries.length`) and the accumulated
decoder-stream instructions. -/

/-- A field representation inside a header block, the unit processed by one
successful call of the wrapped `nghttp3_qpack_decoder_read_request`.
Modelled from the spec: §4.3 — decoding proceeds field-by-field; a field is
either a literal, a reference to an absolute dynamic-table index, or a
malformed representation (instruction corruption, `QPACKFatal`).  A field
occupies `sz + 1` bytes on the wire. -/
inductive Field where
  | literal (sz : Nat) (name value : Nat)
  | dynRef (sz : Nat) (idx : Nat)
  | bad (sz : Nat)
deriving DecidableEq, Repr

/-- Wire size in bytes of one field representation (at least one byte). -/
def fieldSize : Field → Nat
  | .literal sz _ _ => sz + 1
  | .dynRef sz _ => sz + 1
  | .bad sz => sz + 1

/-- Total wire size of a list of field representations. -/
def fieldsSize (fs : List Field) : Nat := (fs.map fieldSize).sum

/-- State of the `DecoderObj` wrapper (nghttp3_qpack.c lines 241-246):
`entries` are the dynamic-table entries applied so far (so the applied
insert count is `entries.length`), `streamContexts` is the key set of the
`stream_contexts` Ruby hash, and `cancels` records the stream-cancellation
instructions accumulated for the decoder stream. -/
structure DecoderObj where
  entries : List (Nat × Nat)
  streamContexts : List Int
  cancels : List Int
deriving DecidableEq, Repr

/-- Embeds `get_or_create_stream_context` (nghttp3_qpack.c lines 337-366): return
the existing cursor for the stream id, or create one lazily and store it in
the hash. -/
def get_or_create_stream_context (d : DecoderObj) (sid : Int) : DecoderObj :=
  if sid ∈ d.streamContexts then d
  else { d with streamContexts := d.streamContexts ++ [sid] }

/-- Removal of a stream's cursor from the `stream_contexts` hash
(`nghttp3_qpack_stream_context_del` plus `rb_hash_delete`), as done on the
`NGHTTP3_QPACK_DECODE_FLAG_FINAL` branch and in `cancel_stream`. -/
def remove_stream_context (d : DecoderObj) (sid : Int) : DecoderObj :=
  { d with streamContexts := d.streamContexts.filter (fun x => x ≠ sid) }

/-- Does one step of the modelled `nghttp3_qpack_decoder_read_request`
process this field without blocking or failing? -/
def step_ok (d : DecoderObj) : Field → Bool
  | .literal _ _ _ => true
  | .dynRef _ i => decide (i < d.entries.length)
  | .bad _ => false

/-- The while loop of `rb_nghttp3_qpack_decoder_decode` (nghttp3_qpack.c
lines 426-471) fused with the wrapped `nghttp3_qpack_decoder_read_request`.
Modelled from the spec: §4.3 — `read_request` is not part of this
repository; it consumes one field per call, emitting a header for a literal
or for a dynamic reference below the applied insert count, reporting
`BLOCKED` (consuming none of the blocking field's bytes) for a reference at
or beyond it, `FINAL` once all input is consumed with `fin` set, and a
`QPACKFatal` error for a malformed representation.  The loop accumulates
emitted headers and consumed bytes; it breaks on `BLOCKED`, on `FINAL`
(tearing down the cursor is done by the caller via the returned flag), on
an error (raised through `nghttp3_rb_error_class_for_code`), and when no
bytes remain without `fin`.  Returns
`(headers, blocked, consumed, finalReached)`. -/
def decode_loop (d : DecoderObj) (fin : Bool) :
    List Field → List (Nat × Nat) → Nat →
    Except RbErrClass (List (Nat × Nat) × Bool × Nat × Bool)
  | [], acc, consumed =>
      if fin then .ok (acc, false, consumed, true)
      else .ok (acc, false, consumed, false)
  | .bad _ :: _, _, _ =>
      .error (nghttp3_rb_error_class_for_code .qpackFatal)
  | .literal sz n v :: rest, acc, consumed =>
      decode_loop d fin rest (acc ++ [(n, v)]) (consumed + (sz + 1))
  | .dynRef sz i :: rest, acc, consumed =>
      if i < d.entries.length then
        decode_loop d fin rest (acc ++ [d.entries.getD i (0, 0)])
          (consumed + (sz + 1))
      else
        .ok (acc, true, consumed, false)

/-- The headers emitted by a run of non-blocking steps over `fs`. -/
def emittedHeaders (d : DecoderObj) : List Field → List (Nat × Nat)
  | [] => []
  | .literal _ n v :: rest => (n, v) :: emittedHeaders d rest
  | .dynRef _ i :: rest => d.entries.getD i (0, 0) :: emittedHeaders d rest
  | .bad _ :: rest => emittedHeaders d rest

/-- The hash returned by `decoder.decode`. -/
structure DecodeResult where
  headers : Option (List (Nat × Nat))
  blocked : Bool
  consumed : Nat
deriving DecidableEq, Repr

/-- Embeds `rb_nghttp3_qpack_decoder_decode` (nghttp3_qpack.c lines 384-481):
look up or lazily create the stream's cursor, run the decode loop, remove
the cursor when the final field was reached, and build the result hash —
`headers` is nil whenever the stream blocked, `blocked` the blocked flag and
`consumed` the total bytes consumed. -/
def rb_nghttp3_qpack_decoder_decode (d : DecoderObj) (sid : Int)
    (fields : List Field) (fin : Bool) :
    Except RbErrClass (DecoderObj × DecodeResult) :=
  let d1 := get_or_create_stream_context d sid
  match decode_loop d1 fin fields [] 0 with
  | .error e => .error e
  | .ok (hs, blocked, consumed, finalReached) =>
      let d2 := if finalReached then remove_stream_context d1 sid else d1
      .ok (d2, ⟨if blocked then none else some hs, blocked, consumed⟩)

/-- Modelled from the spec: `nghttp3_qpack_decoder_cancel_stream` is the
wrapped library's and not part of this repository; per §4.3 it emits a
decoder-stream stream-cancellation instruction for the id (recorded in
`cancels`) and succeeds. -/
def nghttp3_qpack_decoder_cancel_stream (d : DecoderObj) (sid : Int) :
    Option ErrCode × DecoderObj :=
  (none, { d with cancels := d.cancels ++ [sid] })

/-- Embeds `rb_nghttp3_qpack_decoder_cancel_stream` (nghttp3_qpack.c lines
557-590): if the hash holds a cursor for the id, delete it; then call the
library cancel, raising on a nonzero result; return nil. -/
def rb_nghttp3_qpack_decoder_cancel_stream (d : DecoderObj) (sid : Int) :
    Except RbErrClass (DecoderObj × Unit) :=
  let d1 := if sid ∈ d.streamContexts then remove_stream_context d sid else d
  match nghttp3_qpack_decoder_cancel_stream d1 sid with
  | (some e, _) => .error (nghttp3_rb_error_class_for_code e)
  | (none, d2) => .ok (d2, ())

/-! Section: the connection binding, from nghttp3_connection.c.

`ConnectionObj` holds the wrapped `nghttp3_conn` pointer (modelled by the
flag `connAlive`, true while `obj->conn != NULL`), the `is_closed` and
`is_server` flags, and three Ruby hashes keyed by stream id.  Hashes are
embedded as association lists with Ruby hash semantics (`aset` replaces an
existing key, `delete` removes it). -/

/-- Embeds `rb_hash_aref` on an association list keyed by stream id. -/
def hashAref {β : Type} (m : List (Int × β)) (k : Int) : Option β :=
  match m with
  | [] => none
  | (k', v) :: rest => if k' = k then some v else hashAref rest k

/-- Embeds `rb_hash_aset`: replace the value at the key, or append a new entry. -/
def hashAset {β : Type} (m : List (Int × β)) (k : Int) (v : β) :
    List (Int × β) :=
  match m with
  | [] => [(k, v)]
  | (k', v') :: rest =>
      if k' = k then (k, v) :: rest else (k', v') :: hashAset rest k v

/-- Embeds `rb_hash_delete`: remove the entry at the key. -/
def hashDelete {β : Type} (m : List (Int × β)) (k : Int) : List (Int × β) :=
  m.filter (fun p => p.1 ≠ k)

/-- Result of calling a pull-callback body source (the `Proc` case in
`read_data_callback`): nil, the symbol `:wouldblock`, or a byte string. -/
inductive ProcResult where
  | rnil
  | wouldblock
  | rstr (bytes : List Nat)

/-- A body source stored in the `stream_data_readers` hash: either a fixed
byte string or a pull callback (`Proc`). -/
inductive Reader where
  | fixed (bytes : List Nat)
  | proc (f : Int → ProcResult)

/-- State of the `ConnectionObj` wrapper (nghttp3_connection.c lines 5-14).
`connAlive` is `obj->conn != NULL`. -/
structure Conn where
  connAlive : Bool
  isClosed : Bool
  isServer : Bool
  streamDataReaders : List (Int × Reader)
  streamUserData : List (Int × Nat)
  pendingData : List (Int × List (List Nat))

/-- Embeds `rb_nghttp3_connection_close` (lines 267-279): delete the wrapped
connection and set `is_closed` — only when the connection is live and not
yet closed.  Always returns nil and never raises. -/
def rb_nghttp3_connection_close (c : Conn) : Conn × Unit :=
  if c.connAlive && !c.isClosed then
    ({ c with connAlive := false, isClosed := true }, ())
  else (c, ())

/-- Embeds `rb_nghttp3_connection_closed_p` (lines 287-291): no closed guard. -/
def rb_nghttp3_connection_closed_p (c : Conn) : Bool := c.isClosed

/-- Embeds `rb_nghttp3_connection_server_p` (lines 299-303): no closed guard. -/
def rb_nghttp3_connection_server_p (c : Conn) : Bool := c.isServer

/-- Embeds `rb_nghttp3_connection_client_p` (lines 311-315): no closed guard. -/
def rb_nghttp3_connection_client_p (c : Conn) : Bool := !c.isServer

/-- Embeds `rb_nghttp3_connection_bind_control_stream` (lines 206-226).  `lib` is
the result of `nghttp3_conn_bind_control_stream`. -/
def rb_nghttp3_connection_bind_control_stream (lib : Option ErrCode)
    (c : Conn) (sid : Int) : Except RbErrClass (Conn × Unit) :=
  if !c.connAlive || c.isClosed then .error .invalidState
  else
    match lib with
    | some e => .error (nghttp3_rb_error_class_for_code e)
    | none => .ok (c, ())

/-- Embeds `rb_nghttp3_connection_bind_qpack_streams` (lines 235-258). -/
def rb_nghttp3_connection_bind_qpack_streams (lib : Option ErrCode)
    (c : Conn) (encSid decSid : Int) : Except RbErrClass (Conn × Unit) :=
  if !c.connAlive || c.isClosed then .error .invalidState
  else
    match lib with
    | some e => .error (nghttp3_rb_error_class_for_code e)
    | none => .ok (c, ())

/-- Embeds `rb_nghttp3_connection_read_stream` (lines 324-361).  `lib` is the
result of `nghttp3_conn_read_stream`: the bytes consumed, or an error. -/
def rb_nghttp3_connection_read_stream (lib : Except ErrCode Nat) (c : Conn)
    (sid : Int) (data : List Nat) (fin : Bool) :
    Except RbErrClass (Conn × Nat) :=
  if !c.connAlive || c.isClosed then .error .invalidState
  else
    match lib with
    | .error e => .error (nghttp3_rb_error_class_for_code e)
    | .ok n => .ok (c, n)

/-- Outcome of `nghttp3_conn_writev_stream`: a negative error, no pending
output (`rv = 0` with `stream_id = -1`), or a vector batch for a stream. -/
inductive WritevOut where
  | err (e : ErrCode)
  | empty
  | vecs (sid : Int) (fin : Bool) (vs : List (List Nat))

/-- Embeds `rb_nghttp3_connection_writev_stream` (lines 370-412): on a vector
batch the binding concatenates the vectors into one byte string and returns
the `{stream_id, fin, data}` hash; with no pending output it returns nil. -/
def rb_nghttp3_connection_writev_stream (lib : WritevOut) (c : Conn) :
    Except RbErrClass (Conn × Option (Int × Bool × List Nat)) :=
  if !c.connAlive || c.isClosed then .error .invalidState
  else
    match lib with
    | .err e => .error (nghttp3_rb_error_class_for_code e)
    | .empty => .ok (c, none)
    | .vecs sid fin vs => .ok (c, some (sid, fin, vs.flatten))

/-- Embeds `rb_nghttp3_connection_add_write_offset` (lines 420-444). -/
def rb_nghttp3_connection_add_write_offset (lib : Option ErrCode) (c : Conn)
    (sid : Int) (n : Nat) : Except RbErrClass (Conn × Unit) :=
  if !c.connAlive || c.isClosed then .error .invalidState
  else
    match lib with
    | some e => .error (nghttp3_rb_error_class_for_code e)
    | none => .ok (c, ())

/-- Embeds `rb_nghttp3_connection_add_ack_offset` (lines 452-476): after the
closed guard it only calls `nghttp3_conn_add_ack_offset` and raises on a
nonzero result — the binding state, in particular `pending_data`, is left
untouched. -/
def rb_nghttp3_connection_add_ack_offset (lib : Option ErrCode) (c : Conn)
    (sid : Int) (n : Nat) : Except RbErrClass (Conn × Unit) :=
  if !c.connAlive || c.isClosed then .error .invalidState
  else
    match lib with
    | some e => .error (nghttp3_rb_error_class_for_code e)
    | none => .ok (c, ())

/-- Embeds `rb_nghttp3_connection_block_stream` (lines 484-499): the library call
is void. -/
def rb_nghttp3_connection_block_stream (c : Conn) (sid : Int) :
    Except RbErrClass (Conn × Unit) :=
  if !c.connAlive || c.isClosed then .error .invalidState
  else .ok (c, ())

/-- Embeds `rb_nghttp3_connection_unblock_stream` (lines 507-527). -/
def rb_nghttp3_connection_unblock_stream (lib : Option ErrCode) (c : Conn)
    (sid : Int) : Except RbErrClass (Conn × Unit) :=
  if !c.connAlive || c.isClosed then .error .invalidState
  else
    match lib with
    | some e => .error (nghttp3_rb_error_class_for_code e)
    | none => .ok (c, ())

/-- Embeds `rb_nghttp3_connection_stream_writable_p` (lines 535-551).  `lib` is
the boolean result of `nghttp3_conn_is_stream_writable`. -/
def rb_nghttp3_connection_stream_writable_p (lib : Bool) (c : Conn)
    (sid : Int) : Except RbErrClass (Conn × Bool) :=
  if !c.connAlive || c.isClosed then .error .invalidState
  else .ok (c, lib)

/-- Embeds `rb_nghttp3_connection_close_stream` (lines 559-582). -/
def rb_nghttp3_connection_close_stream (lib : Option ErrCode) (c : Conn)
    (sid : Int) (appErrorCode : Nat) : Except RbErrClass (Conn × Unit) :=
  if !c.connAlive || c.isClosed then .error .invalidState
  else
    match lib with
    | some e => .error (nghttp3_rb_error_class_for_code e)
    | none => .ok (c, ())

/-- Embeds `rb_nghttp3_connection_shutdown_stream_write` (lines 590-605): the
library call is void. -/
def rb_nghttp3_connection_shutdown_stream_write (c : Conn) (sid : Int) :
    Except RbErrClass (Conn × Unit) :=
  if !c.connAlive || c.isClosed then .error .invalidState
  else .ok (c, ())

/-- Embeds `rb_nghttp3_connection_resume_stream` (lines 613-633). -/
def rb_nghttp3_connection_resume_stream (lib : Option ErrCode) (c : Conn)
    (sid : Int) : Except RbErrClass (Conn × Unit) :=
  if !c.connAlive || c.isClosed then .error .invalidState
  else
    match lib with
    | some e => .error (nghttp3_rb_error_class_for_code e)
    | none => .ok (c, ())

/-- Append a produced chunk to the stream's `pending_data` array, creating
the array on first use (read_data_callback, lines 663-668 and 690-695). -/
def pendingPush (c : Conn) (sid : Int) (bytes : List Nat) : Conn :=
  let cur := (hashAref c.pendingData sid).getD []
  { c with pendingData := hashAset c.pendingData sid (cur ++ [bytes]) }

/-- Outcome of `read_data_callback` towards the library: zero vectors with
the EOF flag, one data chunk (with or without EOF), or
`NGHTTP3_ERR_WOULDBLOCK`. -/
inductive RDOutcome where
  | eofNoData
  | chunk (bytes : List Nat) (eof : Bool)
  | wouldblockSkip

/-- Embeds `read_data_callback` (nghttp3_connection.c lines 638-701): look up the
stream's body source; no reader means EOF with no data.  A fixed string is
handed out whole in a single chunk with the EOF flag, pushed into
`pending_data` and removed from the readers hash.  A `Proc` is called with
the stream id: nil flags EOF and removes the reader, `:wouldblock` returns
the would-block indicator with no state change, and a string becomes the
next chunk, retained in `pending_data`. -/
def read_data_callback (c : Conn) (sid : Int) : Conn × RDOutcome :=
  match hashAref c.streamDataReaders sid with
  | none => (c, .eofNoData)
  | some (.fixed b) =>
      let c1 := pendingPush c sid b
      let c2 := { c1 with
        streamDataReaders := hashDelete c1.streamDataReaders sid }
      (c2, .chunk b true)
  | some (.proc f) =>
      match f sid with
      | .rnil =>
          ({ c with streamDataReaders := hashDelete c.streamDataReaders sid },
           .eofNoData)
      | .wouldblock => (c, .wouldblockSkip)
      | .rstr b => (pendingPush c sid b, .chunk b false)

/-- Embeds `rb_nghttp3_connection_submit_request` (lines 715-774): closed guard,
then the role check — `submit_request` raises `InvalidState` on a
server-role connection before any body source is registered.  A body (fixed
string or block) is stored in `stream_data_readers`; if the library submit
fails the reader is deleted again and the error is raised. -/
def rb_nghttp3_connection_submit_request (lib : Option ErrCode) (c : Conn)
    (sid : Int) (headers : List (List Nat × List Nat × Nat))
    (body : Option Reader) : Except RbErrClass (Conn × Unit) :=
  if !c.connAlive || c.isClosed then .error .invalidState
  else if c.isServer then .error .invalidState
  else
    let c1 := match body with
      | some r => { c with streamDataReaders := hashAset c.streamDataReaders sid r }
      | none => c
    match lib with
    | some e => .error (nghttp3_rb_error_class_for_code e)
    | none => .ok (c1, ())

/-- Embeds `rb_nghttp3_connection_submit_response` (lines 784-843): closed guard,
then the role check — `submit_response` raises `InvalidState` on a
client-role connection before any body source is registered. -/
def rb_nghttp3_connection_submit_response (lib : Option ErrCode) (c : Conn)
    (sid : Int) (headers : List (List Nat × List Nat × Nat))
    (body : Option Reader) : Except RbErrClass (Conn × Unit) :=
  if !c.connAlive || c.isClosed then .error .invalidState
  else if !c.isServer then .error .invalidState
  else
    let c1 := match body with
      | some r => { c with streamDataReaders := hashAset c.streamDataReaders sid r }
      | none => c
    match lib with
    | some e => .error (nghttp3_rb_error_class_for_code e)
    | none => .ok (c1, ())

/-- Embeds `rb_nghttp3_connection_submit_info` (lines 852-883). -/
def rb_nghttp3_connection_submit_info (lib : Option ErrCode) (c : Conn)
    (sid : Int) (headers : List (List Nat × List Nat × Nat)) :
    Except RbErrClass (Conn × Unit) :=
  if !c.connAlive || c.isClosed then .error .invalidState
  else
    match lib with
    | some e => .error (nghttp3_rb_error_class_for_code e)
    | none => .ok (c, ())

/-- Embeds `rb_nghttp3_connection_submit_trailers` (lines 893-925). -/
def rb_nghttp3_connection_submit_trailers (lib : Option ErrCode) (c : Conn)
    (sid : Int) (trailers : List (List Nat × List Nat × Nat)) :
    Except RbErrClass (Conn × Unit) :=
  if !c.connAlive || c.isClosed then .error .invalidState
  else
    match lib with
    | some e => .error (nghttp3_rb_error_class_for_code e)
    | none => .ok (c, ())

/-- Embeds `rb_nghttp3_connection_submit_shutdown_notice` (lines 934-951). -/
def rb_nghttp3_connection_submit_shutdown_notice (lib : Option ErrCode)
    (c : Conn) : Except RbErrClass (Conn × Unit) :=
  if !c.connAlive || c.isClosed then .error .invalidState
  else
    match lib with
    | some e => .error (nghttp3_rb_error_class_for_code e)
    | none => .ok (c, ())

/-- Embeds `rb_nghttp3_connection_shutdown` (lines 959-976). -/
def rb_nghttp3_connection_shutdown (lib : Option ErrCode) (c : Conn) :
    Except RbErrClass (Conn × Unit) :=
  if !c.connAlive || c.isClosed then .error .invalidState
  else
    match lib with
    | some e => .error (nghttp3_rb_error_class_for_code e)
    | none => .ok (c, ())

/-- Embeds `rb_nghttp3_connection_set_stream_user_data` (lines 984-998). -/
def rb_nghttp3_connection_set_stream_user_data (c : Conn) (sid : Int)
    (dat : Nat) : Except RbErrClass (Conn × Unit) :=
  if !c.connAlive || c.isClosed then .error .invalidState
  else .ok ({ c with streamUserData := hashAset c.streamUserData sid dat }, ())

/-- Embeds `rb_nghttp3_connection_get_stream_user_data` (lines 1006-1017). -/
def rb_nghttp3_connection_get_stream_user_data (c : Conn) (sid : Int) :
    Except RbErrClass (Conn × Option Nat) :=
  if !c.connAlive || c.isClosed then .error .invalidState
  else .ok (c, hashAref c.streamUserData sid)

/-! Section: NV header objects, from nghttp3_nv.c.

`NV.new` duplicates and freezes its name and value arguments
(`rb_str_freeze(rb_str_dup(...))`), so the NV holds private frozen copies.
Ruby strings live on a heap of mutable cells; a string reference is an index
into the heap.  Mutating a caller-owned cell after construction must not
affect the NV's copies. -/

/-- A Ruby string cell: its bytes and its frozen flag. -/
structure RString where
  bytes : List Nat
  frozen : Bool
deriving DecidableEq, Repr

/-- The Ruby string heap; a string reference is an index into it. -/
abbrev StrHeap := List RString

/-- Dereference a string (out-of-range reads give an empty string). -/
def strGet : StrHeap → Nat → RString
  | [], _ => ⟨[], false⟩
  | x :: _, 0 => x
  | _ :: t, n + 1 => strGet t n

/-- Overwrite the cell at an index (out-of-range writes are dropped). -/
def heapSet : StrHeap → Nat → RString → StrHeap
  | [], _, _ => []
  | _ :: t, 0, x => x :: t
  | y :: t, n + 1, x => y :: heapSet t n x

/-- Embeds `rb_str_dup`: allocate a fresh, unfrozen cell holding a copy of the
bytes; returns the new heap and the new reference. -/
def rb_str_dup (h : StrHeap) (r : Nat) : StrHeap × Nat :=
  (h ++ [⟨(strGet h r).bytes, false⟩], h.length)

/-- Embeds `rb_str_freeze`: set the frozen flag of the cell. -/
def rb_str_freeze (h : StrHeap) (r : Nat) : StrHeap :=
  heapSet h r ⟨(strGet h r).bytes, true⟩

/-- In-place mutation of a Ruby string by its owner (e.g. `String#<<` or
`String#replace` on the caller's original argument), the environment action
the mutation-independence property quantifies over: overwrite the bytes of
an existing cell, keeping its frozen flag. -/
def strMutate (h : StrHeap) (r : Nat) (b : List Nat) : StrHeap :=
  heapSet h r ⟨b, (strGet h r).frozen⟩

/-- An NV object: references to its `@name` and `@value` strings and its
`@flags` integer. -/
structure NVObj where
  nameRef : Nat
  valueRef : Nat
  flags : Nat
deriving DecidableEq, Repr

/-- Embeds `rb_nghttp3_nv_initialize` (nghttp3_nv.c lines 34-55): duplicate and
freeze the name, duplicate and freeze the value, store them with the flags
from the `flags:` keyword (0 when absent). -/
def rb_nghttp3_nv_new (h : StrHeap) (name value : Nat)
    (flagsOpt : Option Nat) : StrHeap × NVObj :=
  let d1 := rb_str_dup h name
  let h1 := rb_str_freeze d1.1 d1.2
  let d2 := rb_str_dup h1 value
  let h2 := rb_str_freeze d2.1 d2.2
  (h2, ⟨d1.2, d2.2, flagsOpt.getD 0⟩)

/-- Embeds `rb_nghttp3_nv_get_name` (nghttp3_nv.c lines 57-59). -/
def rb_nghttp3_nv_get_name (h : StrHeap) (nv : NVObj) : RString :=
  strGet h nv.nameRef

/-- Embeds `rb_nghttp3_nv_get_value` (nghttp3_nv.c lines 61-63). -/
def rb_nghttp3_nv_get_value (h : StrHeap) (nv : NVObj) : RString :=
  strGet h nv.valueRef

/-- Embeds `rb_nghttp3_nv_get_flags` (nghttp3_nv.c lines 65-67). -/
def rb_nghttp3_nv_get_flags (nv : NVObj) : Nat := nv.flags

/-! Section: theorems settling the claims. -/

/-- C8: for every failing operation the error raised is the specific class
determined by the underlying error code according to the spec's taxonomy
(thirteen named kinds, any other fatal code the generic Fatal class, any
other non-fatal code the base error class); the binding operations raise
through this mapping and never fail silently or with a generic boolean —
every lib-reported failure surfaces as `.error` of the mapped class. -/
theorem error_taxonomy_respected (c : Conn)
    (h1 : c.connAlive = true) (h2 : c.isClosed = false) :
    (∀ e, nghttp3_rb_error_class_for_code e = spec_error_taxonomy e) ∧
    (∀ e sid data fin, rb_nghttp3_connection_read_stream (.error e) c sid data fin =
        .error (nghttp3_rb_error_class_for_code e)) ∧
    (∀ e, rb_nghttp3_connection_writev_stream (.err e) c =
        .error (nghttp3_rb_error_class_for_code e)) ∧
    (∀ e sid n, rb_nghttp3_connection_add_write_offset (some e) c sid n =
        .error (nghttp3_rb_error_class_for_code e)) ∧
    (∀ e sid n, rb_nghttp3_connection_add_ack_offset (some e) c sid n =
        .error (nghttp3_rb_error_class_for_code e)) ∧
    (∀ e sid, rb_nghttp3_connection_unblock_stream (some e) c sid =
        .error (nghttp3_rb_error_class_for_code e)) ∧
    (∀ e sid ec, rb_nghttp3_connection_close_stream (some e) c sid ec =
        .error (nghttp3_rb_error_class_for_code e)) ∧
    (∀ e sid, rb_nghttp3_connection_resume_stream (some e) c sid =
        .error (nghttp3_rb_error_class_for_code e)) ∧
    (∀ e sid hs, rb_nghttp3_connection_submit_info (some e) c sid hs =
        .error (nghttp3_rb_error_class_for_code e)) ∧
    (∀ e sid hs, rb_nghttp3_connection_submit_trailers (some e) c sid hs =
        .error (nghttp3_rb_error_class_for_code e)) ∧
    (∀ e, rb_nghttp3_connection_submit_shutdown_notice (some e) c =
        .error (nghttp3_rb_error_class_for_code e)) ∧
    (∀ e, rb_nghttp3_connection_shutdown (some e) c =
        .error (nghttp3_rb_error_class_for_code e)) ∧
    (∀ e sid, rb_nghttp3_connection_bind_control_stream (some e) c sid =
        .error (nghttp3_rb_error_class_for_code e)) ∧
    (∀ e enc dec, rb_nghttp3_connection_bind_qpack_streams (some e) c enc dec =
        .error (nghttp3_rb_error_class_for_code e)) ∧
    (c.isServer = false → ∀ e sid hs body,
        rb_nghttp3_connection_submit_request (some e) c sid hs body =
          .error (nghttp3_rb_error_class_for_code e)) ∧
    (c.isServer = true → ∀ e sid hs body,
        rb_nghttp3_connection_submit_response (some e) c sid hs body =
          .error (nghttp3_rb_error_class_for_code e)) := by
  have hg : (!c.connAlive || c.isClosed) = false := by rw [h1, h2]; rfl
  refine ⟨fun e => by cases e <;> rfl, ?_, ?_, ?_, ?_, ?_, ?_, ?_, ?_, ?_, ?_,
    ?_, ?_, ?_, ?_, ?_⟩ <;>
    intros <;>
    simp_all [rb_nghttp3_connection_read_stream,
      rb_nghttp3_connection_writev_stream,
      rb_nghttp3_connection_add_write_offset,
      rb_nghttp3_connection_add_ack_offset,
      rb_nghttp3_connection_unblock_stream,
      rb_nghttp3_connection_close_stream,
      rb_nghttp3_connection_resume_stream,
      rb_nghttp3_connection_submit_info,
      rb_nghttp3_connection_submit_trailers,
      rb_nghttp3_connection_submit_shutdown_notice,
      rb_nghttp3_connection_shutdown,
      rb_nghttp3_connection_bind_control_stream,
      rb_nghttp3_connection_bind_qpack_streams,
      rb_nghttp3_connection_submit_request,
      rb_nghttp3_connection_submit_response]

/-- Witness for C8 at a concrete open client connection and the
`QPACKFatal` error code. -/
theorem error_taxonomy_respected_witness :
    rb_nghttp3_connection_read_stream (.error .qpackFatal)
        ⟨true, false, false, [], [], []⟩ 0 [] false =
      .error .qpackFatal :=
  (error_taxonomy_respected ⟨true, false, false, [], [], []⟩ rfl rfl).2.1
    .qpackFatal 0 [] false

/-- C9: close is idempotent and exempt from the closed-connection guard —
closing an already-closed connection returns nil without raising and leaves
the state unchanged, `closed?` returns true permanently after the first
close, and `closed?`, `server?` and `client?` remain callable (they are
total and consult only the flags). -/
theorem close_idempotent_queries_exempt (c : Conn) (h : c.connAlive = true) :
    rb_nghttp3_connection_closed_p (rb_nghttp3_connection_close c).1 = true ∧
    rb_nghttp3_connection_close (rb_nghttp3_connection_close c).1 =
      ((rb_nghttp3_connection_close c).1, ()) ∧
    rb_nghttp3_connection_closed_p
      (rb_nghttp3_connection_close (rb_nghttp3_connection_close c).1).1 = true ∧
    rb_nghttp3_connection_server_p (rb_nghttp3_connection_close c).1 =
      c.isServer ∧
    rb_nghttp3_connection_client_p (rb_nghttp3_connection_close c).1 =
      !c.isServer := by
  by_cases hcl : c.isClosed <;>
    simp [rb_nghttp3_connection_close, rb_nghttp3_connection_closed_p,
      rb_nghttp3_connection_server_p, rb_nghttp3_connection_client_p, h, hcl]

/-- Witness for C9 at a concrete live server connection. -/
theorem close_idempotent_queries_exempt_witness :
    rb_nghttp3_connection_closed_p
      (rb_nghttp3_connection_close ⟨true, false, true, [], [], []⟩).1 = true :=
  (close_idempotent_queries_exempt ⟨true, false, true, [], [], []⟩ rfl).1

/-- C4: every connection operation invoked after `close` raises
`InvalidState` (the returned value is the error alone, so the connection
state is left unchanged), for each of the twenty operations and any library
outcome or arguments. -/
theorem closed_connection_rejects_all_ops (c0 c : Conn)
    (halive : c0.connAlive = true)
    (hc : c = (rb_nghttp3_connection_close c0).1) :
    (∀ lib sid data fin, rb_nghttp3_connection_read_stream lib c sid data fin =
        .error .invalidState) ∧
    (∀ lib, rb_nghttp3_connection_writev_stream lib c = .error .invalidState) ∧
    (∀ lib sid n, rb_nghttp3_connection_add_write_offset lib c sid n =
        .error .invalidState) ∧
    (∀ lib sid n, rb_nghttp3_connection_add_ack_offset lib c sid n =
        .error .invalidState) ∧
    (∀ sid, rb_nghttp3_connection_block_stream c sid = .error .invalidState) ∧
    (∀ lib sid, rb_nghttp3_connection_unblock_stream lib c sid =
        .error .invalidState) ∧
    (∀ lib sid, rb_nghttp3_connection_resume_stream lib c sid =
        .error .invalidState) ∧
    (∀ lib sid ec, rb_nghttp3_connection_close_stream lib c sid ec =
        .error .invalidState) ∧
    (∀ sid, rb_nghttp3_connection_shutdown_stream_write c sid =
        .error .invalidState) ∧
    (∀ lib sid, rb_nghttp3_connection_stream_writable_p lib c sid =
        .error .invalidState) ∧
    (∀ lib sid hs body, rb_nghttp3_connection_submit_request lib c sid hs body =
        .error .invalidState) ∧
    (∀ lib sid hs body, rb_nghttp3_connection_submit_response lib c sid hs body =
        .error .invalidState) ∧
    (∀ lib sid hs, rb_nghttp3_connection_submit_info lib c sid hs =
        .error .invalidState) ∧
    (∀ lib sid hs, rb_nghttp3_connection_submit_trailers lib c sid hs =
        .error .invalidState) ∧
    (∀ lib, rb_nghttp3_connection_submit_shutdown_notice lib c =
        .error .invalidState) ∧
    (∀ lib, rb_nghttp3_connection_shutdown lib c = .error .invalidState) ∧
    (∀ lib sid, rb_nghttp3_connection_bind_control_stream lib c sid =
        .error .invalidState) ∧
    (∀ lib enc dec, rb_nghttp3_connection_bind_qpack_streams lib c enc dec =
        .error .invalidState) ∧
    (∀ sid dat, rb_nghttp3_connection_set_stream_user_data c sid dat =
        .error .invalidState) ∧
    (∀ sid, rb_nghttp3_connection_get_stream_user_data c sid =
        .error .invalidState) := by
  have hg : (!c.connAlive || c.isClosed) = true := by
    subst hc
    by_cases hcl : c0.isClosed <;>
      simp [rb_nghttp3_connection_close, halive, hcl]
  refine ⟨?_, ?_, ?_, ?_, ?_, ?_, ?_, ?_, ?_, ?_, ?_, ?_, ?_, ?_, ?_, ?_, ?_,
    ?_, ?_, ?_⟩ <;>
    intros <;>
    simp [rb_nghttp3_connection_read_stream,
      rb_nghttp3_connection_writev_stream,
      rb_nghttp3_connection_add_write_offset,
      rb_nghttp3_connection_add_ack_offset,
      rb_nghttp3_connection_block_stream,
      rb_nghttp3_connection_unblock_stream,
      rb_nghttp3_connection_resume_stream,
      rb_nghttp3_connection_close_stream,
      rb_nghttp3_connection_shutdown_stream_write,
      rb_nghttp3_connection_stream_writable_p,
      rb_nghttp3_connection_submit_request,
      rb_nghttp3_connection_submit_response,
      rb_nghttp3_connection_submit_info,
      rb_nghttp3_connection_submit_trailers,
      rb_nghttp3_connection_submit_shutdown_notice,
      rb_nghttp3_connection_shutdown,
      rb_nghttp3_connection_bind_control_stream,
      rb_nghttp3_connection_bind_qpack_streams,
      rb_nghttp3_connection_set_stream_user_data,
      rb_nghttp3_connection_get_stream_user_data, hg]

/-- Witness for C4: a concrete connection that was closed rejects
`read_stream` with `InvalidState`. -/
theorem closed_connection_rejects_all_ops_witness :
    rb_nghttp3_connection_read_stream (.ok 0)
        ⟨false, true, false, [], [], []⟩ 0 [] false = .error .invalidState :=
  (closed_connection_rejects_all_ops ⟨true, false, false, [], [], []⟩
    ⟨false, true, false, [], [], []⟩ rfl rfl).1 (.ok 0) 0 [] false

/-- C5: `submit_request` raises `InvalidState` on a server-role connection
and `submit_response` raises `InvalidState` on a client-role connection (in
both cases the role check precedes the body-source registration, and the
call returns the error alone, so no state change happens); conversely a
successful `submit_request` implies client role and a successful
`submit_response` implies server role. -/
theorem submit_role_validation (lib : Option ErrCode) (c : Conn) (sid : Int)
    (hs : List (List Nat × List Nat × Nat)) (body : Option Reader) :
    (c.isServer = true →
      rb_nghttp3_connection_submit_request lib c sid hs body =
        .error .invalidState) ∧
    (c.isServer = false →
      rb_nghttp3_connection_submit_response lib c sid hs body =
        .error .invalidState) ∧
    (∀ p, rb_nghttp3_connection_submit_request lib c sid hs body = .ok p →
      c.isServer = false) ∧
    (∀ p, rb_nghttp3_connection_submit_response lib c sid hs body = .ok p →
      c.isServer = true) := by
  refine ⟨?_, ?_, ?_, ?_⟩
  · intro hsrv
    simp [rb_nghttp3_connection_submit_request, hsrv]
  · intro hsrv
    simp [rb_nghttp3_connection_submit_response, hsrv]
  · intro p hp
    cases hsrv : c.isServer
    · rfl
    · simp [rb_nghttp3_connection_submit_request, hsrv] at hp
  · intro p hp
    cases hsrv : c.isServer
    · simp [rb_nghttp3_connection_submit_response, hsrv] at hp
    · rfl

/-- Witness for C5: `submit_request` on a concrete open server-role
connection raises `InvalidState`. -/
theorem submit_role_validation_witness :
    rb_nghttp3_connection_submit_request none ⟨true, false, true, [], [], []⟩
        0 [] none = .error .invalidState :=
  (submit_role_validation none ⟨true, false, true, [], [], []⟩ 0 [] none).1 rfl

/-- C2 (code bug): a fixed-body chunk handed out by `read_data_callback` is
retained in the stream's `pending_data` buffer, but a subsequent
`add_ack_offset` covering the chunk's full length does not release it — the
binding never removes entries from `pending_data` (only connection teardown
frees them), contradicting the claim that chunks are released in order once
acks cover them.  Evaluated at the failing input: stream 0 with fixed body
`"x"` (byte 120), then `add_ack_offset(0, 1)` — the state is unchanged and
the chunk is still pending. -/
theorem ack_offset_never_releases_pending :
    read_data_callback ⟨true, false, false, [(0, .fixed [120])], [], []⟩ 0 =
      (⟨true, false, false, [], [], [(0, [[120]])]⟩, .chunk [120] true) ∧
    rb_nghttp3_connection_add_ack_offset none
        ⟨true, false, false, [], [], [(0, [[120]])]⟩ 0 1 =
      .ok (⟨true, false, false, [], [], [(0, [[120]])]⟩, ()) :=
  ⟨rfl, rfl⟩

/-- Helper: running the decode loop over a run of non-blocking fields
followed by a dynamic reference at or beyond the applied insert count
returns blocked with exactly the bytes before the blocking field consumed
and without reaching the final flag. -/
theorem decode_loop_blocked (d : DecoderObj) (fin : Bool) (sz j : Nat)
    (rest : List Field) (pre : List Field) :
    ∀ (acc : List (Nat × Nat)) (consumed : Nat),
      (∀ f ∈ pre, step_ok d f = true) → d.entries.length ≤ j →
      decode_loop d fin (pre ++ Field.dynRef sz j :: rest) acc consumed =
        .ok (acc ++ emittedHeaders d pre, true, consumed + fieldsSize pre,
             false) := by
  induction pre with
  | nil =>
      intro acc consumed hpre hj
      simp only [List.nil_append, decode_loop, emittedHeaders, fieldsSize,
        List.map_nil, List.sum_nil, List.append_nil, Nat.add_zero]
      rw [if_neg (Nat.not_lt.mpr hj)]
  | cons f pre ih =>
      intro acc consumed hpre hj
      have hf : step_ok d f = true := hpre f (List.mem_cons_self f pre)
      have htail : ∀ g ∈ pre, step_ok d g = true := fun g hg =>
        hpre g (List.mem_cons_of_mem f hg)
      cases f with
      | literal sz' n v =>
          simp only [List.cons_append, decode_loop, List.append_eq]
          rw [ih (acc ++ [(n, v)]) (consumed + (sz' + 1)) htail hj]
          simp [emittedHeaders, fieldsSize, fieldSize]
          omega
      | dynRef sz' i =>
          have hi : i < d.entries.length := by
            simpa [step_ok] using hf
          simp only [List.cons_append, decode_loop, List.append_eq]
          rw [if_pos hi,
            ih (acc ++ [d.entries.getD i (0, 0)]) (consumed + (sz' + 1))
              htail hj]
          simp [emittedHeaders, fieldsSize, fieldSize]
          omega
      | bad sz' =>
          simp [step_ok] at hf

/-- C1: whenever decoding reaches a field referencing a dynamic-table index
at or beyond the decoder's applied insert count (after any run of
non-blocking fields), `decode` returns `blocked: true` with `headers: nil`
— no partial header list even though headers were already emitted — and the
consumed byte count covers exactly the bytes read before the blocking
field; the stream's cursor is kept for resumption. -/
theorem qpack_decode_blocks_on_unapplied_index (d : DecoderObj) (sid : Int)
    (pre : List Field) (sz j : Nat) (rest : List Field) (fin : Bool)
    (hpre : ∀ f ∈ pre, step_ok d f = true)
    (hj : d.entries.length ≤ j) :
    rb_nghttp3_qpack_decoder_decode d sid (pre ++ Field.dynRef sz j :: rest)
        fin =
      .ok (get_or_create_stream_context d sid, ⟨none, true, fieldsSize pre⟩)
    := by
  have hent : (get_or_create_stream_context d sid).entries = d.entries := by
    unfold get_or_create_stream_context
    split <;> rfl
  have hstep : ∀ f ∈ pre, step_ok (get_or_create_stream_context d sid) f =
      true := by
    intro f hf
    have hsf := hpre f hf
    cases f <;> simp_all [step_ok, hent]
  simp only [rb_nghttp3_qpack_decoder_decode]
  rw [decode_loop_blocked (get_or_create_stream_context d sid) fin sz j rest
    pre [] 0 hstep (hent ▸ hj)]
  simp

/-- Witness for C1: the spec's scenario — insert count 3, a header block
with one literal then a reference to dynamic index 5 — yields
`blocked: true`, `headers: nil`, with only the literal's one byte consumed
and the cursor kept. -/
theorem qpack_decode_blocks_witness :
    rb_nghttp3_qpack_decoder_decode ⟨[(1, 1), (2, 2), (3, 3)], [], []⟩ 0
        [Field.literal 0 7 8, Field.dynRef 0 5] false =
      .ok (⟨[(1, 1), (2, 2), (3, 3)], [0], []⟩, ⟨none, true, 1⟩) :=
  qpack_decode_blocks_on_unapplied_index ⟨[(1, 1), (2, 2), (3, 3)], [], []⟩ 0
    [Field.literal 0 7 8] 0 5 [] false (by decide) (by decide)

/-- Helper: the decode loop fails only with the `QPACKFatal` class (the
only error the modelled `read_request` reports). -/
theorem decode_loop_error_is_qpack_fatal (d : DecoderObj) (fin : Bool) :
    ∀ (fields : List Field) (acc : List (Nat × Nat)) (consumed : Nat)
      (e : RbErrClass),
      decode_loop d fin fields acc consumed = .error e → e = .qpackFatal := by
  intro fields
  induction fields with
  | nil =>
      intro acc consumed e he
      by_cases hf : fin <;> simp [decode_loop, hf] at he
  | cons f rest ih =>
      intro acc consumed e he
      cases f with
      | literal sz n v =>
          exact ih (acc ++ [(n, v)]) (consumed + (sz + 1)) e he
      | dynRef sz i =>
          by_cases hi : i < d.entries.length
          · rw [decode_loop, if_pos hi] at he
            exact ih _ _ e he
          · rw [decode_loop, if_neg hi] at he
            cases he
      | bad sz =>
          rw [decode_loop] at he
          cases he
          rfl

/-- Counterexample for C3: a fin=true decode consuming the last field tears
the cursor down, yet the next decode call for the same stream id succeeds
(returning an empty result) instead of failing with `StreamNotFound` or
`InvalidState`. -/
theorem qpack_decode_after_final_counterexample :
    rb_nghttp3_qpack_decoder_decode ⟨[], [], []⟩ 0 [Field.literal 0 1 2]
        true =
      .ok (⟨[], [], []⟩, ⟨some [(1, 2)], false, 1⟩) ∧
    rb_nghttp3_qpack_decoder_decode ⟨[], [], []⟩ 0 [] false =
      .ok (⟨[], [0], []⟩, ⟨some [], false, 0⟩) :=
  ⟨rfl, rfl⟩

/-- C3 (amended): after a fin=true decode reaches the last field the
stream's cursor is torn down, but a subsequent decode call for the same
stream id does not fail with `StreamNotFound` or `InvalidState` — no decode
call ever raises those classes; instead `get_or_create_stream_context`
lazily creates a fresh cursor for the id. -/
theorem qpack_decode_never_stream_not_found (d : DecoderObj) (sid : Int)
    (fields : List Field) (fin : Bool) :
    rb_nghttp3_qpack_decoder_decode d sid fields fin ≠
      .error .streamNotFound ∧
    rb_nghttp3_qpack_decoder_decode d sid fields fin ≠
      .error .invalidState ∧
    sid ∈ (get_or_create_stream_context d sid).streamContexts := by
  have key : ∀ e, rb_nghttp3_qpack_decoder_decode d sid fields fin =
      .error e → e = .qpackFatal := by
    intro e he
    cases hdl : decode_loop (get_or_create_stream_context d sid) fin fields
        [] 0 with
    | error e2 =>
        simp only [rb_nghttp3_qpack_decoder_decode, hdl] at he
        cases he
        exact decode_loop_error_is_qpack_fatal
          (get_or_create_stream_context d sid) fin fields [] 0 _ hdl
    | ok p =>
        obtain ⟨hs, blocked, consumed, fr⟩ := p
        simp only [rb_nghttp3_qpack_decoder_decode, hdl] at he
        exact Except.noConfusion he
  refine ⟨fun hc => absurd (key _ hc) (by decide),
    fun hc => absurd (key _ hc) (by decide), ?_⟩
  unfold get_or_create_stream_context
  split
  · assumption
  · exact List.mem_append.mpr (Or.inr (List.mem_singleton.mpr rfl))

/-- Counterexample for C6: cancelling the same stream twice — the second
call does not return `StreamNotFound`; it succeeds, returning nil, and
emits one more cancellation instruction. -/
theorem qpack_cancel_twice_counterexample :
    rb_nghttp3_qpack_decoder_cancel_stream ⟨[], [7], []⟩ 7 =
      .ok (⟨[], [], [7]⟩, ()) ∧
    rb_nghttp3_qpack_decoder_cancel_stream ⟨[], [], [7]⟩ 7 =
      .ok (⟨[], [], [7, 7]⟩, ()) :=
  ⟨rfl, rfl⟩

/-- C6 (amended): `cancel_stream` is safe against a stream that no longer
exists and never crashes — after a first cancel removed the stream's
cursor, a second `cancel_stream` on the same id still succeeds (returning
nil, emitting another cancellation instruction) rather than raising
`StreamNotFound`. -/
theorem qpack_cancel_stream_missing_safe (d : DecoderObj) (sid : Int) :
    ∃ d1 : DecoderObj,
      rb_nghttp3_qpack_decoder_cancel_stream d sid = .ok (d1, ()) ∧
      sid ∉ d1.streamContexts ∧
      rb_nghttp3_qpack_decoder_cancel_stream d1 sid =
        .ok ({ d1 with cancels := d1.cancels ++ [sid] }, ()) := by
  by_cases hm : sid ∈ d.streamContexts
  · refine ⟨{ d with
        streamContexts := d.streamContexts.filter (fun x => x ≠ sid),
        cancels := d.cancels ++ [sid] }, ?_, ?_, ?_⟩
    · simp [rb_nghttp3_qpack_decoder_cancel_stream,
        nghttp3_qpack_decoder_cancel_stream, remove_stream_context, hm]
    · intro hc
      simp [List.mem_filter] at hc
    · have hnot : sid ∉ d.streamContexts.filter (fun x => x ≠ sid) := by
        intro hc
        simp [List.mem_filter] at hc
      simp [rb_nghttp3_qpack_decoder_cancel_stream,
        nghttp3_qpack_decoder_cancel_stream, hnot]
  · refine ⟨{ d with cancels := d.cancels ++ [sid] }, ?_, hm, ?_⟩
    · simp [rb_nghttp3_qpack_decoder_cancel_stream,
        nghttp3_qpack_decoder_cancel_stream, hm]
    · simp [rb_nghttp3_qpack_decoder_cancel_stream,
        nghttp3_qpack_decoder_cancel_stream, hm]

/-- The data-read contract exactly as the specification (§4.4/§6) states
it, written from the spec's words for comparison with the embedded
`read_data_callback`: a fixed byte buffer is handed out whole in one chunk
with the end-of-data flag, retained in the pending buffer and its reader
removed; a pull callback returning nil flags EOF and removes the reader;
a would-block return skips the stream without error and without state
change; a byte-string return supplies the next chunk, retained in the
pending buffer. -/
def spec_read_data_contract (c : Conn) (sid : Int) (r : Reader) :
    Conn × RDOutcome :=
  match r with
  | .fixed b =>
      ({ pendingPush c sid b with
         streamDataReaders :=
           hashDelete (pendingPush c sid b).streamDataReaders sid },
       .chunk b true)
  | .proc f =>
      match f sid with
      | .rnil =>
          ({ c with
             streamDataReaders := hashDelete c.streamDataReaders sid },
           .eofNoData)
      | .wouldblock => (c, .wouldblockSkip)
      | .rstr b => (pendingPush c sid b, .chunk b false)

/-- C7: behaviour of the data-read callback for every kind of body source —
a fixed byte string is handed out whole in a single chunk with the
end-of-data flag set (retained in `pending_data`, reader removed); a
pull-callback returning nil signals EOF and removes the reader; a
`:wouldblock` return makes the callback report the would-block indicator
with no state change; a string return supplies that string as the next
chunk, retained in `pending_data`. -/
theorem read_data_callback_body_sources (c : Conn) (sid : Int) (r : Reader)
    (h : hashAref c.streamDataReaders sid = some r) :
    read_data_callback c sid = spec_read_data_contract c sid r := by
  cases r with
  | fixed b =>
      unfold read_data_callback
      rw [h]
      rfl
  | proc f =>
      unfold read_data_callback
      rw [h]
      rfl

/-- Witness for C7: a concrete stream 0 with fixed body bytes `[7, 8]` —
the whole buffer comes out as one EOF-flagged chunk, lands in
`pending_data`, and the reader is removed. -/
theorem read_data_callback_body_sources_witness :
    read_data_callback ⟨true, false, false, [(0, .fixed [7, 8])], [], []⟩ 0 =
      (⟨true, false, false, [], [], [(0, [[7, 8]])]⟩, .chunk [7, 8] true) :=
  read_data_callback_body_sources
    ⟨true, false, false, [(0, .fixed [7, 8])], [], []⟩ 0 (.fixed [7, 8]) rfl

/-- Helper: reading below the left part of an appended heap. -/
theorem strGet_append_left (h l : StrHeap) (r : Nat) (hr : r < h.length) :
    strGet (h ++ l) r = strGet h r := by
  induction h generalizing r with
  | nil => simp at hr
  | cons x t ih =>
      cases r with
      | zero => rfl
      | succ n => exact ih n (by simpa using hr)

/-- Helper: reading the first appended cell. -/
theorem strGet_append_self (h : StrHeap) (x : RString) (l : StrHeap) :
    strGet (h ++ x :: l) h.length = x := by
  induction h with
  | nil => rfl
  | cons y t ih => simpa using ih

/-- Helper: reading a cell other than the one just written. -/
theorem strGet_heapSet_ne (h : StrHeap) (i r : Nat) (x : RString)
    (hne : r ≠ i) : strGet (heapSet h i x) r = strGet h r := by
  induction h generalizing i r with
  | nil => rfl
  | cons y t ih =>
      cases i with
      | zero =>
          cases r with
          | zero => exact absurd rfl hne
          | succ n => rfl
      | succ m =>
          cases r with
          | zero => rfl
          | succ n => exact ih m n (fun hc => hne (by rw [hc]))

/-- Helper: overwriting the first appended cell. -/
theorem heapSet_append_self (h : StrHeap) (x y : RString) (l : StrHeap) :
    heapSet (h ++ x :: l) h.length y = h ++ y :: l := by
  induction h with
  | nil => rfl
  | cons z t ih => simpa [heapSet] using ih

/-- Helper: duplicating then freezing a string appends one frozen copy of
its bytes to the heap. -/
theorem dup_freeze_eq (h : StrHeap) (r : Nat) :
    rb_str_freeze (rb_str_dup h r).1 (rb_str_dup h r).2 =
      h ++ [⟨(strGet h r).bytes, true⟩] := by
  unfold rb_str_dup rb_str_freeze
  rw [strGet_append_self h _ []]
  exact heapSet_append_self h _ _ []

/-- Helper: the heap and object produced by `NV.new` — two fresh frozen
cells holding copies of the construction-time bytes, referenced by the
object, with the flags defaulting to 0. -/
theorem nv_new_eq (h : StrHeap) (name value : Nat) (fo : Option Nat)
    (hv : value < h.length) :
    rb_nghttp3_nv_new h name value fo =
      (h ++ [⟨(strGet h name).bytes, true⟩, ⟨(strGet h value).bytes, true⟩],
       ⟨h.length, h.length + 1, fo.getD 0⟩) := by
  simp only [rb_nghttp3_nv_new]
  rw [dup_freeze_eq h name, dup_freeze_eq _ value,
    strGet_append_left h _ value hv]
  simp [rb_str_dup, List.append_assoc]

/-- C10: an NV constructed by `NV.new` stores frozen private copies of the
construction-time name and value bytes (the accessors return those bytes
with the frozen flag set), the flags accessor returns the provided flags or
0 when absent, and mutating any pre-existing heap cell — in particular the
caller's original name and value strings — after construction does not
change what the NV's accessors return. -/
theorem nv_frozen_private_copies (h : StrHeap) (name value : Nat)
    (fo : Option Nat) (r : Nat) (b : List Nat)
    (hn : name < h.length) (hv : value < h.length) (hr : r < h.length) :
    rb_nghttp3_nv_get_name (rb_nghttp3_nv_new h name value fo).1
        (rb_nghttp3_nv_new h name value fo).2 =
      ⟨(strGet h name).bytes, true⟩ ∧
    rb_nghttp3_nv_get_value (rb_nghttp3_nv_new h name value fo).1
        (rb_nghttp3_nv_new h name value fo).2 =
      ⟨(strGet h value).bytes, true⟩ ∧
    rb_nghttp3_nv_get_flags (rb_nghttp3_nv_new h name value fo).2 =
      fo.getD 0 ∧
    rb_nghttp3_nv_get_name
        (strMutate (rb_nghttp3_nv_new h name value fo).1 r b)
        (rb_nghttp3_nv_new h name value fo).2 =
      ⟨(strGet h name).bytes, true⟩ ∧
    rb_nghttp3_nv_get_value
        (strMutate (rb_nghttp3_nv_new h name value fo).1 r b)
        (rb_nghttp3_nv_new h name value fo).2 =
      ⟨(strGet h value).bytes, true⟩ := by
  rw [nv_new_eq h name value fo hv]
  have hname_read :
      strGet (h ++ [⟨(strGet h name).bytes, true⟩,
        ⟨(strGet h value).bytes, true⟩]) h.length =
      (⟨(strGet h name).bytes, true⟩ : RString) :=
    strGet_append_self h _ _
  have hvalue_read :
      strGet (h ++ [⟨(strGet h name).bytes, true⟩,
        ⟨(strGet h value).bytes, true⟩]) (h.length + 1) =
      (⟨(strGet h value).bytes, true⟩ : RString) := by
    have h2 := strGet_append_self (h ++ [⟨(strGet h name).bytes, true⟩])
      (⟨(strGet h value).bytes, true⟩ : RString) []
    simpa [List.append_assoc] using h2
  refine ⟨hname_read, hvalue_read, rfl, ?_, ?_⟩
  · show strGet (strMutate _ r b) h.length = _
    unfold strMutate
    rw [strGet_heapSet_ne _ r h.length _ (by omega)]
    exact hname_read
  · show strGet (strMutate _ r b) (h.length + 1) = _
    unfold strMutate
    rw [strGet_heapSet_ne _ r (h.length + 1) _ (by omega)]
    exact hvalue_read

/-- Witness for C10: a two-string heap; after constructing the NV from
string 0 (bytes `[1]`) and string 1 (bytes `[2]`) and then mutating the
caller's original string 0 to `[9]`, the NV's name still reads as the
frozen construction-time bytes `[1]`. -/
theorem nv_frozen_private_copies_witness :
    rb_nghttp3_nv_get_name
        (strMutate
          (rb_nghttp3_nv_new [⟨[1], false⟩, ⟨[2], false⟩] 0 1 none).1
          0 [9])
        (rb_nghttp3_nv_new [⟨[1], false⟩, ⟨[2], false⟩] 0 1 none).2 =
      ⟨[1], true⟩ :=
  (nv_frozen_private_copies [⟨[1], false⟩, ⟨[2], false⟩] 0 1 none 0 [9]
    (by decide) (by decide) (by decide)).2.2.2.1

end Nghttp3
